import Mathlib

/-!
Verification of the go-snmpsim operator scripts (Zabbix provisioning tooling).

This file gives a shallow embedding, in Lean 4, of the pure computational
content of the repository's Python scripts:

* `scripts/add_bulk_items_1000.py` — the bulk item-generation procedure
  (catalogs `INTERFACE_ITEMS` / `SYSTEM_ITEMS`, the per-host item list,
  the 100-element batch loop and its duplicate-error accounting);
* `scripts/add_bulk_items.py` — the second bulk item-generation procedure
  (template catalogs with an `ifindex` placeholder substituted by
  Python `str.replace`);
* `zabbix/zabbix_api_client.py` — `wait_for_server`,
  `update_polling_interval`, and the SNMP-interface payload of
  `create_host`;
* `zabbix/manage_devices.py` — the `add` subcommand's device loop;
* `tests/run_zabbix_test.py` — the linear stage sequence of
  `run_full_test`.

Python strings are `String` (reasoned about through `String.data`),
Python ints are `Nat` or `Int` as overflow/negativity demands, remote
calls are modelled by explicit outcome parameters, and each stateful loop
is explicit structural recursion.
-/

set_option maxRecDepth 8000

namespace SnmpsimSpec

/-! ## Generic helpers for Python primitives -/

/-- Fuel-indexed core of `pyRange`; the fuel (an upper bound on the
number of iterations, structurally decreasing so that the kernel can
evaluate it) never runs out when it starts at `stop - start`. -/
def pyRangeAux (stop step : Nat) : Nat → Nat → List Nat
  | 0, _ => []
  | fuel + 1, start =>
    if 0 < step ∧ start < stop then
      start :: pyRangeAux stop step fuel (start + step)
    else
      []

/-- Python `range(start, stop, step)` for a positive step: the ascending
list `start, start+step, ...` of values `< stop`. Empty when `step = 0`
(Python raises there; the scripts only use step 100). -/
def pyRange (start stop step : Nat) : List Nat :=
  pyRangeAux stop step (stop - start) start

/-- Python slice `l[a:b]` for `0 ≤ a ≤ b` (the only shape the scripts use). -/
def pySlice (l : List α) (a b : Nat) : List α :=
  (l.drop a).take (b - a)

/-- Fuel-indexed scanner for `countOccs`; on a match the scan skips the
whole pattern (Python counts non-overlapping occurrences). The fuel
(structurally decreasing, so that the kernel can evaluate it) never
runs out when it starts at the length of the scanned list. -/
def countOccsAux (pat : List Char) : Nat → List Char → Nat
  | _, [] => 0
  | 0, _ => 0
  | fuel + 1, c :: rest =>
    if List.isPrefixOf pat (c :: rest) then
      1 + countOccsAux pat fuel (List.drop (pat.length - 1) rest)
    else
      countOccsAux pat fuel rest

/-- Python `s.count(pat)` for a nonempty pattern: the number of
non-overlapping occurrences, scanning left to right. Returns 0 for the
empty pattern (unused; Python's answer differs there). -/
def countOccs (s pat : List Char) : Nat :=
  match pat with
  | [] => 0
  | _ :: _ => countOccsAux pat s.length s

/-- Fuel-indexed scanner for `pyReplaceList`, same shape as
`countOccsAux`. -/
def pyReplaceListAux (pat rep : List Char) : Nat → List Char → List Char
  | _, [] => []
  | 0, s => s
  | fuel + 1, c :: rest =>
    if List.isPrefixOf pat (c :: rest) then
      rep ++ pyReplaceListAux pat rep fuel (List.drop (pat.length - 1) rest)
    else
      c :: pyReplaceListAux pat rep fuel rest

/-- Python `s.replace(old, new)` for a nonempty `old`: replace the
non-overlapping occurrences left to right. Identity on the empty pattern
(unused; Python's answer differs there). -/
def pyReplaceList (s pat rep : List Char) : List Char :=
  match pat with
  | [] => s
  | _ :: _ => pyReplaceListAux pat rep s.length s

/-- Python `s.replace(old, new)` on `String`. -/
def pyReplace (s old new : String) : String :=
  ⟨pyReplaceList s.data old.data new.data⟩

/-- Decimal accumulation over a digit list. -/
def pyIntAux : List Char → Nat → Nat
  | [], acc => acc
  | c :: rest, acc => pyIntAux rest (acc * 10 + (c.toNat - 48))

/-- Python `int(s)` on the digit-only strings the catalogs contain
(total here; Python raises on non-digits, which never occurs below). -/
def pyInt (s : String) : Nat :=
  pyIntAux s.data 0

/-! ## `scripts/add_bulk_items_1000.py` -/

/-- One entry of `INTERFACE_ITEMS` in `add_bulk_items_1000.py`: the
4-tuple `(oid_name, item_key, value_type, data_type)`. The starred
`trends_opt` unpacking in `main` is always empty for these 4-tuples. -/
structure IfEntry1000 where
  oid_name : String
  item_key : String
  value_type : String
  data_type : String
deriving DecidableEq

/-- One entry of `SYSTEM_ITEMS` in `add_bulk_items_1000.py`: the 5-tuple
`(oid_name, item_key, value_type, data_type, trends)`. -/
structure SysEntry1000 where
  oid_name : String
  item_key : String
  value_type : String
  data_type : String
  trends : String
deriving DecidableEq

/-- `INTERFACE_ITEMS` of `add_bulk_items_1000.py`, verbatim. -/
def INTERFACE_ITEMS : List IfEntry1000 := [
  ⟨"ifDescr", "net.if.description", "1", "6"⟩,
  ⟨"ifName", "net.if.name", "1", "6"⟩,
  ⟨"ifMtu", "net.if.mtu", "3", "0"⟩,
  ⟨"ifSpeed", "net.if.speed", "3", "0"⟩,
  ⟨"ifOperStatus", "net.if.status", "3", "0"⟩,
  ⟨"ifAdminStatus", "net.if.admin.status", "3", "0"⟩,
  ⟨"ifPhysAddress", "net.if.physaddr", "1", "6"⟩,
  ⟨"ifInOctets", "net.if.in.bytes", "3", "2"⟩,
  ⟨"ifInUcastPkts", "net.if.in.ucast", "3", "2"⟩,
  ⟨"ifInNUcastPkts", "net.if.in.nucast", "3", "2"⟩,
  ⟨"ifInDiscards", "net.if.in.discards", "3", "2"⟩,
  ⟨"ifInErrors", "net.if.in.errors", "3", "2"⟩,
  ⟨"ifOutOctets", "net.if.out.bytes", "3", "2"⟩,
  ⟨"ifOutUcastPkts", "net.if.out.ucast", "3", "2"⟩,
  ⟨"ifOutNUcastPkts", "net.if.out.nucast", "3", "2"⟩,
  ⟨"ifOutDiscards", "net.if.out.discards", "3", "2"⟩,
  ⟨"ifOutErrors", "net.if.out.errors", "3", "2"⟩,
  ⟨"ifHCInOctets", "net.if.hc.in.bytes", "3", "2"⟩,
  ⟨"ifHCInUcastPkts", "net.if.hc.in.ucast", "3", "2"⟩,
  ⟨"ifHCOutOctets", "net.if.hc.out.bytes", "3", "2"⟩,
  ⟨"ifHCOutUcastPkts", "net.if.hc.out.ucast", "3", "2"⟩,
  ⟨"ifDuplex", "net.if.duplex", "3", "0"⟩,
  ⟨"ifHighSpeed", "net.if.highspeed", "3", "0"⟩,
  ⟨"ifLastChange", "net.if.lastchange", "3", "0"⟩,
  ⟨"ifConnectorPresent", "net.if.connector", "3", "0"⟩,
  ⟨"etherStatsOctets", "net.ether.in.bytes", "3", "2"⟩,
  ⟨"etherStatsUndersizePkts", "net.ether.undersize", "3", "2"⟩,
  ⟨"etherStatsOversizePkts", "net.ether.oversize", "3", "2"⟩,
  ⟨"etherStatsCRCAlignErrors", "net.ether.crc", "3", "2"⟩]

/-- `SYSTEM_ITEMS` of `add_bulk_items_1000.py`, verbatim. -/
def SYSTEM_ITEMS : List SysEntry1000 := [
  ⟨"sysDescr", "system.description", "1", "6", "0"⟩,
  ⟨"sysUpTime", "system.uptime", "3", "0", "0"⟩,
  ⟨"sysContact", "system.contact", "1", "6", "0"⟩,
  ⟨"sysName", "system.name", "1", "6", "0"⟩,
  ⟨"sysLocation", "system.location", "1", "6", "0"⟩,
  ⟨"cpmCPUTotal5min.0", "cpu.util.5min", "3", "0", "3"⟩,
  ⟨"cpmCPUTotal1min.0", "cpu.util.1min", "3", "0", "3"⟩,
  ⟨"cpmCPUTotal5minRev.0", "cpu.util.rev.5min", "3", "0", "3"⟩,
  ⟨"cpmCPUTotal1minRev.0", "cpu.util.rev.1min", "3", "0", "3"⟩,
  ⟨"ciscoMemoryPoolUsed.1", "memory.pool.main.used", "3", "0", "0"⟩,
  ⟨"ciscoMemoryPoolFree.1", "memory.pool.main.free", "3", "0", "0"⟩,
  ⟨"ciscoMemoryPoolUsed.2", "memory.pool.io.used", "3", "0", "0"⟩,
  ⟨"ciscoMemoryPoolFree.2", "memory.pool.io.free", "3", "0", "0"⟩,
  ⟨"entSensorValue.1", "sensor.inlet.temp", "3", "0", "3"⟩,
  ⟨"entSensorValue.2", "sensor.exhaust.temp", "3", "0", "3"⟩,
  ⟨"entSensorValue.3", "sensor.cpu.temp", "3", "0", "3"⟩,
  ⟨"entSensorValue.4", "sensor.chassis.temp", "3", "0", "3"⟩,
  ⟨"entSensorValue.5", "sensor.module.temp", "3", "0", "3"⟩,
  ⟨"entSensorValue.6", "sensor.backplane.temp", "3", "0", "3"⟩,
  ⟨"entSensorValue.7", "sensor.fabric.temp", "3", "0", "3"⟩,
  ⟨"entSensorValue.8", "sensor.systembrd.temp", "3", "0", "3"⟩,
  ⟨"entSensorStatus.1", "sensor.status.inlet", "3", "0", "0"⟩,
  ⟨"entSensorStatus.2", "sensor.status.exhaust", "3", "0", "0"⟩,
  ⟨"entSensorStatus.3", "sensor.status.cpu", "3", "0", "0"⟩,
  ⟨"entSensorStatus.4", "sensor.status.chassis", "3", "0", "0"⟩,
  ⟨"entSensorStatus.5", "sensor.status.module", "3", "0", "0"⟩,
  ⟨"entSensorStatus.6", "sensor.status.backplane", "3", "0", "0"⟩,
  ⟨"entSensorStatus.7", "sensor.status.fabric", "3", "0", "0"⟩,
  ⟨"entSensorStatus.8", "sensor.status.systembrd", "3", "0", "0"⟩,
  ⟨"ciscoFanState.1", "fan.status.1", "3", "0", "0"⟩,
  ⟨"ciscoFanState.2", "fan.status.2", "3", "0", "0"⟩,
  ⟨"ciscoFanState.3", "fan.status.3", "3", "0", "0"⟩,
  ⟨"ciscoFanState.4", "fan.status.4", "3", "0", "0"⟩,
  ⟨"ciscoFanState.5", "fan.status.5", "3", "0", "0"⟩,
  ⟨"ciscoFanState.6", "fan.status.6", "3", "0", "0"⟩,
  ⟨"ciscoPowerSupplyStatus.1", "psu.status.1", "3", "0", "0"⟩,
  ⟨"ciscoPowerSupplyStatus.2", "psu.status.2", "3", "0", "0"⟩,
  ⟨"ciscoPowerSupplyStatus.3", "psu.status.3", "3", "0", "0"⟩,
  ⟨"ciscoPowerSupplyStatus.4", "psu.status.4", "3", "0", "0"⟩,
  ⟨"entPhysicalSerialNum.1", "entity.serial.chassis", "1", "6", "0"⟩,
  ⟨"entPhysicalModelName.1", "entity.model.chassis", "1", "6", "0"⟩,
  ⟨"ipInReceives", "ip.in.receives", "3", "0", "2"⟩,
  ⟨"ipInHdrErrors", "ip.in.hdrerrors", "3", "0", "2"⟩,
  ⟨"ipInAddrErrors", "ip.in.addrerrors", "3", "0", "2"⟩,
  ⟨"ipForwDatagrams", "ip.forwarded", "3", "0", "2"⟩,
  ⟨"ipInDelivers", "ip.in.delivers", "3", "0", "2"⟩,
  ⟨"ipOutRequests", "ip.out.requests", "3", "0", "2"⟩,
  ⟨"ipOutDiscards", "ip.out.discards", "3", "0", "2"⟩,
  ⟨"ipReasmReqds", "ip.reassm.reqds", "3", "0", "2"⟩,
  ⟨"ipReasmOKs", "ip.reassm.oks", "3", "0", "2"⟩,
  ⟨"ipFragOKs", "ip.frag.oks", "3", "0", "2"⟩,
  ⟨"tcpInSegs", "tcp.in.segments", "3", "0", "2"⟩,
  ⟨"tcpOutSegs", "tcp.out.segments", "3", "0", "2"⟩,
  ⟨"udpInDatagrams", "udp.in.datagrams", "3", "0", "2"⟩,
  ⟨"udpOutDatagrams", "udp.out.datagrams", "3", "0", "2"⟩,
  ⟨"icmpInMsgs", "icmp.in.msgs", "3", "0", "2"⟩,
  ⟨"icmpOutMsgs", "icmp.out.msgs", "3", "0", "2"⟩,
  ⟨"icmpInEchos", "icmp.in.echos", "3", "0", "2"⟩,
  ⟨"icmpOutEchoReplies", "icmp.out.echo.replies", "3", "0", "2"⟩]

/-- One item-definition dictionary built by `main` of
`add_bulk_items_1000.py` (the fields that vary; the constant fields
`type = 20`, `delay = "5m"`, `history = "7d"`, `status = "0"` are kept
to mirror the dict shape). -/
structure Item1000 where
  hostid : String
  name : String
  key_ : String
  type : Nat
  snmp_oid : String
  value_type : Nat
  delay : String
  history : String
  trends : Nat
  status : String
  interfaceid : String
deriving DecidableEq

/-- The interface-item dictionary of `add_bulk_items_1000.py` for entry
`e` at interface index `i`: `trends_opt` is empty for the 4-tuples, so
`trends = 365`; `oid` and `key` come from the f-strings of lines
163-164. -/
def mkIfItem1000 (hostid ifaceid : String) (i : Nat) (e : IfEntry1000) : Item1000 :=
  { hostid := hostid
    name := e.item_key ++ " ifIndex " ++ toString i
    key_ := e.item_key ++ "[" ++ toString i ++ "]"
    type := 20
    snmp_oid := e.oid_name ++ "." ++ toString i
    value_type := pyInt e.value_type
    delay := "5m"
    history := "7d"
    trends := 365
    status := "0"
    interfaceid := ifaceid }

/-- The system-item dictionary of `add_bulk_items_1000.py` for entry
`e`: `trends` is `int(e.trends)`, overwritten with 0 when
`int(e.value_type) == 4`. -/
def mkSysItem1000 (hostid ifaceid : String) (e : SysEntry1000) : Item1000 :=
  { hostid := hostid
    name := e.item_key
    key_ := e.item_key
    type := 20
    snmp_oid := e.oid_name
    value_type := pyInt e.value_type
    delay := "5m"
    history := "7d"
    trends := if pyInt e.value_type = 4 then 0 else pyInt e.trends
    status := "0"
    interfaceid := ifaceid }

/-- The first phase of the `items_to_create` loop in
`add_bulk_items_1000.py`: `for if_idx in range(1, 49)`, one item per
`INTERFACE_ITEMS` entry. -/
def interfaceItems1000 (hostid ifaceid : String) : List Item1000 :=
  (List.range' 1 48).flatMap fun i =>
    INTERFACE_ITEMS.map (mkIfItem1000 hostid ifaceid i)

/-- The second phase: one item per `SYSTEM_ITEMS` entry. -/
def systemItems1000 (hostid ifaceid : String) : List Item1000 :=
  SYSTEM_ITEMS.map (mkSysItem1000 hostid ifaceid)

/-- The full `items_to_create` list built for one host by
`add_bulk_items_1000.py`. -/
def itemsToCreate1000 (hostid ifaceid : String) : List Item1000 :=
  interfaceItems1000 hostid ifaceid ++ systemItems1000 hostid ifaceid

/-- The batch size used by both bulk scripts (`batch_size = 100` in
`add_bulk_items_1000.py`, `BATCH_SIZE = 100` in `add_bulk_items.py`). -/
def BATCH_SIZE : Nat := 100

/-- The successive chunks submitted by the batch loops:
`for batch_start in range(0, len(items), batch_size):
   batch = items[batch_start:batch_start + batch_size]`. -/
def submitBatches (l : List α) (bs : Nat) : List (List α) :=
  (pyRange 0 l.length bs).map fun s => pySlice l s (s + bs)

/-- The duplicate-error marker searched for in `item.create` error
messages (`add_bulk_items_1000.py`, lines 214-217). -/
def dupPattern : String := "already exists"

/-- The per-batch accounting of `add_bulk_items_1000.py` lines 206-222:
given the batch length and the outcome of the `item.create` call
(`none` = success, `some msg` = exception text), return the deltas
added to `(host_success, host_failed)`. Counters are `Int` because
Python's `host_success += len(batch) - duplicate_count` may subtract. -/
def batchCreateDeltas (batchLen : Nat) (outcome : Option String) : Int × Int :=
  match outcome with
  | none => ((batchLen : Int), 0)
  | some errorStr =>
    if dupPattern.data <:+: errorStr.data then
      let d := countOccs errorStr.data dupPattern.data
      ((batchLen : Int) - (d : Int), (d : Int))
    else
      (0, (batchLen : Int))

/-! ## `scripts/add_bulk_items.py` -/

/-- One template of `INTERFACE_ITEMS` or `SYSTEM_ITEMS` in
`add_bulk_items.py`: a dict with `name`, `key`, `oid`, optional
`units`, and `value_type`. -/
structure Tmpl2 where
  name : String
  key : String
  oid : String
  units : Option String
  value_type : Nat
deriving DecidableEq

/-- The `ifindex` placeholder replaced by `str.replace` in
`add_bulk_items.py` (an opening brace, `ifindex`, a closing brace). -/
def ifxPat : String := "\x7bifindex\x7d"

/-- `INTERFACE_ITEMS` of `add_bulk_items.py`, verbatim (brace
placeholders written with escapes). -/
def INTERFACE_ITEMS2 : List Tmpl2 := [
  ⟨"Interface \x7bifindex\x7d: Bits received", "net.if.in.bits[\x7bifindex\x7d]", "1.3.6.1.2.1.31.1.1.1.6.\x7bifindex\x7d", some "bps", 3⟩,
  ⟨"Interface \x7bifindex\x7d: Bits sent", "net.if.out.bits[\x7bifindex\x7d]", "1.3.6.1.2.1.31.1.1.1.10.\x7bifindex\x7d", some "bps", 3⟩,
  ⟨"Interface \x7bifindex\x7d: Packets received", "net.if.in.packets[\x7bifindex\x7d]", "1.3.6.1.2.1.2.2.1.11.\x7bifindex\x7d", some "pps", 3⟩,
  ⟨"Interface \x7bifindex\x7d: Packets sent", "net.if.out.packets[\x7bifindex\x7d]", "1.3.6.1.2.1.2.2.1.17.\x7bifindex\x7d", some "pps", 3⟩,
  ⟨"Interface \x7bifindex\x7d: HC Unicast packets in", "net.if.in.ucast.hc[\x7bifindex\x7d]", "1.3.6.1.2.1.31.1.1.1.7.\x7bifindex\x7d", none, 3⟩,
  ⟨"Interface \x7bifindex\x7d: HC Unicast packets out", "net.if.out.ucast.hc[\x7bifindex\x7d]", "1.3.6.1.2.1.31.1.1.1.11.\x7bifindex\x7d", none, 3⟩,
  ⟨"Interface \x7bifindex\x7d: Multicast packets in", "net.if.in.mcast[\x7bifindex\x7d]", "1.3.6.1.2.1.31.1.1.1.2.\x7bifindex\x7d", none, 3⟩,
  ⟨"Interface \x7bifindex\x7d: Multicast packets out", "net.if.out.mcast[\x7bifindex\x7d]", "1.3.6.1.2.1.31.1.1.1.4.\x7bifindex\x7d", none, 3⟩,
  ⟨"Interface \x7bifindex\x7d: HC Multicast packets in", "net.if.in.mcast.hc[\x7bifindex\x7d]", "1.3.6.1.2.1.31.1.1.1.8.\x7bifindex\x7d", none, 3⟩,
  ⟨"Interface \x7bifindex\x7d: HC Multicast packets out", "net.if.out.mcast.hc[\x7bifindex\x7d]", "1.3.6.1.2.1.31.1.1.1.12.\x7bifindex\x7d", none, 3⟩,
  ⟨"Interface \x7bifindex\x7d: Broadcast packets in", "net.if.in.bcast[\x7bifindex\x7d]", "1.3.6.1.2.1.31.1.1.1.3.\x7bifindex\x7d", none, 3⟩,
  ⟨"Interface \x7bifindex\x7d: Broadcast packets out", "net.if.out.bcast[\x7bifindex\x7d]", "1.3.6.1.2.1.31.1.1.1.5.\x7bifindex\x7d", none, 3⟩,
  ⟨"Interface \x7bifindex\x7d: HC Broadcast packets in", "net.if.in.bcast.hc[\x7bifindex\x7d]", "1.3.6.1.2.1.31.1.1.1.9.\x7bifindex\x7d", none, 3⟩,
  ⟨"Interface \x7bifindex\x7d: HC Broadcast packets out", "net.if.out.bcast.hc[\x7bifindex\x7d]", "1.3.6.1.2.1.31.1.1.1.13.\x7bifindex\x7d", none, 3⟩,
  ⟨"Interface \x7bifindex\x7d: Non-unicast packets in", "net.if.in.nucast[\x7bifindex\x7d]", "1.3.6.1.2.1.2.2.1.12.\x7bifindex\x7d", none, 3⟩,
  ⟨"Interface \x7bifindex\x7d: Non-unicast packets out", "net.if.out.nucast[\x7bifindex\x7d]", "1.3.6.1.2.1.2.2.1.18.\x7bifindex\x7d", none, 3⟩,
  ⟨"Interface \x7bifindex\x7d: Inbound errors", "net.if.in.errors[\x7bifindex\x7d]", "1.3.6.1.2.1.2.2.1.14.\x7bifindex\x7d", none, 3⟩,
  ⟨"Interface \x7bifindex\x7d: Outbound errors", "net.if.out.errors[\x7bifindex\x7d]", "1.3.6.1.2.1.2.2.1.20.\x7bifindex\x7d", none, 3⟩,
  ⟨"Interface \x7bifindex\x7d: Inbound discards", "net.if.in.discards[\x7bifindex\x7d]", "1.3.6.1.2.1.2.2.1.13.\x7bifindex\x7d", none, 3⟩,
  ⟨"Interface \x7bifindex\x7d: Outbound discards", "net.if.out.discards[\x7bifindex\x7d]", "1.3.6.1.2.1.2.2.1.19.\x7bifindex\x7d", none, 3⟩,
  ⟨"Interface \x7bifindex\x7d: Unknown protocols", "net.if.in.unknownprotos[\x7bifindex\x7d]", "1.3.6.1.2.1.2.2.1.15.\x7bifindex\x7d", none, 3⟩,
  ⟨"Interface \x7bifindex\x7d: Operational status", "net.if.operstatus[\x7bifindex\x7d]", "1.3.6.1.2.1.2.2.1.8.\x7bifindex\x7d", none, 3⟩,
  ⟨"Interface \x7bifindex\x7d: Admin status", "net.if.adminstatus[\x7bifindex\x7d]", "1.3.6.1.2.1.2.2.1.7.\x7bifindex\x7d", none, 3⟩,
  ⟨"Interface \x7bifindex\x7d: Speed Mbps", "net.if.speed[\x7bifindex\x7d]", "1.3.6.1.2.1.31.1.1.1.15.\x7bifindex\x7d", some "Mbps", 3⟩,
  ⟨"Interface \x7bifindex\x7d: MTU", "net.if.mtu[\x7bifindex\x7d]", "1.3.6.1.2.1.2.2.1.4.\x7bifindex\x7d", some "bytes", 3⟩,
  ⟨"Interface \x7bifindex\x7d: Type", "net.if.type[\x7bifindex\x7d]", "1.3.6.1.2.1.2.2.1.3.\x7bifindex\x7d", none, 3⟩,
  ⟨"Interface \x7bifindex\x7d: Duplex", "net.if.duplex[\x7bifindex\x7d]", "1.3.6.1.2.1.10.7.2.1.19.\x7bifindex\x7d", none, 3⟩,
  ⟨"Interface \x7bifindex\x7d: Last change", "net.if.lastchange[\x7bifindex\x7d]", "1.3.6.1.2.1.2.2.1.9.\x7bifindex\x7d", none, 3⟩,
  ⟨"Interface \x7bifindex\x7d: Output queue length", "net.if.outqlen[\x7bifindex\x7d]", "1.3.6.1.2.1.2.2.1.21.\x7bifindex\x7d", none, 3⟩]

/-- The literal part of `SYSTEM_ITEMS` in `add_bulk_items.py` (before
the `extend`/`append` loops). -/
def SYSTEM_ITEMS2_BASE : List Tmpl2 := [
  ⟨"System: Description", "system.descr", "1.3.6.1.2.1.1.1.0", none, 4⟩,
  ⟨"System: Uptime", "system.uptime", "1.3.6.1.2.1.1.3.0", none, 3⟩,
  ⟨"System: Contact", "system.contact", "1.3.6.1.2.1.1.4.0", none, 4⟩,
  ⟨"System: Name", "system.name", "1.3.6.1.2.1.1.5.0", none, 4⟩,
  ⟨"System: Location", "system.location", "1.3.6.1.2.1.1.6.0", none, 4⟩,
  ⟨"IP: Packets received", "ip.in.receives", "1.3.6.1.2.1.4.3.0", none, 3⟩,
  ⟨"IP: Header errors", "ip.in.hdrerrors", "1.3.6.1.2.1.4.4.0", none, 3⟩,
  ⟨"IP: Address errors", "ip.in.addrerrors", "1.3.6.1.2.1.4.5.0", none, 3⟩,
  ⟨"IP: Forwarded datagrams", "ip.forw.datagrams", "1.3.6.1.2.1.4.6.0", none, 3⟩,
  ⟨"IP: Discarded packets", "ip.in.discards", "1.3.6.1.2.1.4.8.0", none, 3⟩,
  ⟨"IP: Delivered packets", "ip.in.delivers", "1.3.6.1.2.1.4.9.0", none, 3⟩,
  ⟨"IP: Output requests", "ip.out.requests", "1.3.6.1.2.1.4.10.0", none, 3⟩,
  ⟨"TCP: Active opens", "tcp.active.opens", "1.3.6.1.2.1.6.5.0", none, 3⟩,
  ⟨"TCP: Passive opens", "tcp.passive.opens", "1.3.6.1.2.1.6.6.0", none, 3⟩,
  ⟨"TCP: Failed attempts", "tcp.attempt.fails", "1.3.6.1.2.1.6.7.0", none, 3⟩,
  ⟨"TCP: Established resets", "tcp.estab.resets", "1.3.6.1.2.1.6.8.0", none, 3⟩,
  ⟨"TCP: Current established", "tcp.curr.estab", "1.3.6.1.2.1.6.9.0", none, 3⟩,
  ⟨"TCP: Segments received", "tcp.in.segs", "1.3.6.1.2.1.6.10.0", none, 3⟩,
  ⟨"TCP: Segments sent", "tcp.out.segs", "1.3.6.1.2.1.6.11.0", none, 3⟩,
  ⟨"TCP: Retransmitted segments", "tcp.retrans.segs", "1.3.6.1.2.1.6.12.0", none, 3⟩,
  ⟨"UDP: Datagrams received", "udp.in.datagrams", "1.3.6.1.2.1.7.1.0", none, 3⟩,
  ⟨"UDP: No ports", "udp.no.ports", "1.3.6.1.2.1.7.2.0", none, 3⟩,
  ⟨"UDP: Input errors", "udp.in.errors", "1.3.6.1.2.1.7.3.0", none, 3⟩,
  ⟨"UDP: Datagrams sent", "udp.out.datagrams", "1.3.6.1.2.1.7.4.0", none, 3⟩]

/-- The full `SYSTEM_ITEMS` of `add_bulk_items.py` after the CPU (4),
memory (2), temperature (8), fan (6) and PSU (4) loops extend it. -/
def SYSTEM_ITEMS2 : List Tmpl2 :=
  SYSTEM_ITEMS2_BASE ++
  ((List.range' 1 4).flatMap fun i => [
    ⟨"CPU " ++ toString i ++ ": 1min utilization", "cpu.util.1min[" ++ toString i ++ "]",
      "1.3.6.1.4.1.9.9.109.1.1.1.1.3." ++ toString i, some "%", 3⟩,
    ⟨"CPU " ++ toString i ++ ": 5min utilization", "cpu.util.5min[" ++ toString i ++ "]",
      "1.3.6.1.4.1.9.9.109.1.1.1.1.4." ++ toString i, some "%", 3⟩]) ++
  ((List.range' 1 2).flatMap fun i => [
    ⟨"Memory Pool " ++ toString i ++ ": Used", "memory.used[" ++ toString i ++ "]",
      "1.3.6.1.4.1.9.9.48.1.1.1.5." ++ toString i, some "B", 3⟩,
    ⟨"Memory Pool " ++ toString i ++ ": Free", "memory.free[" ++ toString i ++ "]",
      "1.3.6.1.4.1.9.9.48.1.1.1.6." ++ toString i, some "B", 3⟩]) ++
  ((List.range' 1 8).flatMap fun i => [
    ⟨"Temperature Sensor " ++ toString i ++ ": Value", "temp.value[" ++ toString i ++ "]",
      "1.3.6.1.4.1.9.9.13.1.3.1.3." ++ toString i, some "°C", 3⟩,
    ⟨"Temperature Sensor " ++ toString i ++ ": State", "temp.state[" ++ toString i ++ "]",
      "1.3.6.1.4.1.9.9.13.1.3.1.4." ++ toString i, none, 3⟩]) ++
  ((List.range' 1 6).map fun i =>
    ⟨"Fan " ++ toString i ++ ": State", "fan.state[" ++ toString i ++ "]",
      "1.3.6.1.4.1.9.9.13.1.4.1.3." ++ toString i, none, 3⟩) ++
  ((List.range' 1 4).map fun i =>
    ⟨"PSU " ++ toString i ++ ": State", "psu.state[" ++ toString i ++ "]",
      "1.3.6.1.4.1.9.9.13.1.5.1.3." ++ toString i, none, 3⟩)

/-- One item dictionary built by `add_bulk_items.py` (lines 202-218 and
221-238). `trends` is a string there (`'365d'` / `'0'`). -/
structure Item2 where
  hostid : String
  interfaceid : String
  name : String
  key_ : String
  type : Nat
  snmp_oid : String
  delay : String
  history : String
  trends : String
  value_type : Nat
  units : Option String
deriving DecidableEq

/-- The interface item of `add_bulk_items.py` for template `t` at
interface index `i`: `name`, `key` and `oid` have the `ifindex`
placeholder replaced by `str(i)`; `trends` is always `'365d'`. -/
def mkIfItem2 (hostid ifaceid : String) (i : Nat) (t : Tmpl2) : Item2 :=
  { hostid := hostid
    interfaceid := ifaceid
    name := pyReplace t.name ifxPat (toString i)
    key_ := pyReplace t.key ifxPat (toString i)
    type := 20
    snmp_oid := pyReplace t.oid ifxPat (toString i)
    delay := "5m"
    history := "7d"
    trends := "365d"
    value_type := t.value_type
    units := t.units }

/-- The system item of `add_bulk_items.py` for template `t`:
`trends = '0' if value_type == 4 else '365d'`. -/
def mkSysItem2 (hostid ifaceid : String) (t : Tmpl2) : Item2 :=
  { hostid := hostid
    interfaceid := ifaceid
    name := t.name
    key_ := t.key
    type := 20
    snmp_oid := t.oid
    delay := "5m"
    history := "7d"
    trends := if t.value_type = 4 then "0" else "365d"
    value_type := t.value_type
    units := t.units }

/-- The first phase of `items_to_create` in `add_bulk_items.py`:
`for ifindex in range(1, 49)`, one item per template. -/
def interfaceItems2 (hostid ifaceid : String) : List Item2 :=
  (List.range' 1 48).flatMap fun i =>
    INTERFACE_ITEMS2.map (mkIfItem2 hostid ifaceid i)

/-- The second phase: one item per `SYSTEM_ITEMS` template. -/
def systemItems2 (hostid ifaceid : String) : List Item2 :=
  SYSTEM_ITEMS2.map (mkSysItem2 hostid ifaceid)

/-- The full `items_to_create` list built for one host by
`add_bulk_items.py`. -/
def itemsToCreate2 (hostid ifaceid : String) : List Item2 :=
  interfaceItems2 hostid ifaceid ++ systemItems2 hostid ifaceid

/-! ## `zabbix/zabbix_api_client.py` -/

/-- Outcome of one plain GET probe in `wait_for_server`: the request
raised (`requests.RequestException`, caught and ignored) or returned an
HTTP status code. -/
inductive ProbeOutcome where
  | exn : ProbeOutcome
  | status : Nat → ProbeOutcome
deriving DecidableEq

/-- The `for attempt in range(max_retries)` loop of `wait_for_server`
(lines 450-466), starting at `attempt`, with structurally decreasing
fuel (never exhausted when it starts at `maxRetries - attempt`).
Returns the boolean result, the number of GET probes issued, and the
total seconds slept (`time.sleep(retry_interval)` runs only when
`attempt < max_retries - 1`). -/
def waitLoopAux (probe : Nat → ProbeOutcome) (maxRetries interval : Nat) :
    Nat → Nat → Bool × Nat × Nat
  | 0, _ => (false, 0, 0)
  | fuel + 1, attempt =>
    if attempt < maxRetries then
      if probe attempt = ProbeOutcome.status 200 then
        (true, 1, 0)
      else
        let slept := if attempt < maxRetries - 1 then interval else 0
        let r := waitLoopAux probe maxRetries interval fuel (attempt + 1)
        (r.1, r.2.1 + 1, r.2.2 + slept)
    else
      (false, 0, 0)

/-- `ZabbixAPIClient.wait_for_server(max_retries, retry_interval)`:
returns `(result, probes issued, seconds slept)`. -/
def waitForServer (probe : Nat → ProbeOutcome) (maxRetries interval : Nat) :
    Bool × Nat × Nat :=
  waitLoopAux probe maxRetries interval maxRetries 0

/-- The `for item in items` loop of `update_polling_interval` (lines
385-395): `ok itemid` tells whether the `item.update` call for that
item succeeds; returns the boolean result and the item ids for which an
`item.update` request was issued, in order. -/
def updateItemsLoop (ok : String → Bool) : List String → Bool × List String
  | [] => (true, [])
  | itemid :: rest =>
    if ok itemid then
      let r := updateItemsLoop ok rest
      (r.1, itemid :: r.2)
    else
      (false, [itemid])

/-- `ZabbixAPIClient.update_polling_interval`: `items` is what
`get_host_items` returned for the host; returns the boolean result and
the `item.update` requests issued. -/
def updatePollingInterval (items : List String) (ok : String → Bool) :
    Bool × List String :=
  if items.isEmpty then (true, [])
  else updateItemsLoop ok items

/-- The `details` dict of the SNMP interface built by `create_host`
(lines 196-210). -/
structure SnmpIfaceDetails where
  version : Nat
  community : String
deriving DecidableEq

/-- The SNMP interface dict built by `create_host`. -/
structure SnmpIface where
  type : Nat
  main : Nat
  useip : Nat
  ip : String
  dns : String
  port : String
  details : SnmpIfaceDetails
deriving DecidableEq

/-- The interface payload `create_host` sends in `host.create`:
`community` is the `$SNMP_COMMUNITY` macro exactly when the argument is
`"public"`, otherwise the literal argument. -/
def createHostIface (ip_address : String) (port : Nat)
    (snmp_version community : String) : SnmpIface :=
  { type := 2
    main := 1
    useip := 1
    ip := ip_address
    dns := ""
    port := toString port
    details :=
      { version := pyInt snmp_version
        community :=
          if community = "public" then "\x7b$SNMP_COMMUNITY\x7d" else community } }

/-! ## `zabbix/manage_devices.py` -/

/-- Python `f"{n:03d}"` for `n ≥ 0`: the decimal form left-padded with
zeros to width 3. -/
def pad3 (n : Nat) : String :=
  let s := toString n
  if s.length < 3 then ⟨List.replicate (3 - s.length) '0' ++ s.data⟩ else s

/-- The deterministic host name of device number `n`
(`hostname = f"cisco-iosxr-{device_id}"`). -/
def deviceHostname (n : Nat) : String :=
  "cisco-iosxr-" ++ pad3 n

/-- The `for device_num in range(1, num_devices + 1)` loop of
`cmd_add_devices` (lines 82-113), abstracted over the remote server
state: `state` is the list of host names existing on the server. For
each index, if the existence check (`get_host` by name) finds the host
it is skipped; otherwise `create_host` is issued, appending the name to
the server state. Returns the final server state and the names passed
to `create_host`, in order. -/
def addDevicesLoop (state : List String) : List Nat → List String × List String
  | [] => (state, [])
  | n :: rest =>
    let hostname := deviceHostname n
    if hostname ∈ state then
      addDevicesLoop state rest
    else
      let r := addDevicesLoop (state ++ [hostname]) rest
      (r.1, hostname :: r.2)

/-- One run of the `add <count>` device-provisioning procedure against
server state `state`. -/
def cmdAddDevices (state : List String) (count : Nat) : List String × List String :=
  addDevicesLoop state (List.range' 1 count)

/-! ## `tests/run_zabbix_test.py` -/

/-- The seven stages of `ZabbixIntegrationTester.run_full_test`. -/
inductive Stage where
  | initClient : Stage
  | auth : Stage
  | addDevices : Stage
  | verifyItems : Stage
  | waitData : Stage
  | collect : Stage
  | report : Stage
deriving DecidableEq

/-- The boolean results of the fallible stages of `run_full_test`. -/
structure StageOutcomes where
  initOk : Bool
  authOk : Bool
  addOk : Bool
  verifyOk : Bool
  dataOk : Bool

/-- `run_full_test` (lines 379-423), with each stage's boolean result
supplied by `o`: returns the overall boolean result and the list of
stages that executed, in order. `_initialize_client` and
`_authenticate` returning `False` return immediately; the results of
`_add_devices`, `_verify_items_created` and `_wait_for_data_collection`
only print warnings or record errors, and `_collect_metrics` and
`_generate_report` always run afterwards. -/
def runFullTest (o : StageOutcomes) : Bool × List Stage :=
  let ex0 := [Stage.initClient]
  if o.initOk = false then (false, ex0)
  else
    let ex1 := ex0 ++ [Stage.auth]
    if o.authOk = false then (false, ex1)
    else
      let ex2 := ex1 ++ [Stage.addDevices]
      let ex3 := ex2 ++ [Stage.verifyItems]
      let ex4 := ex3 ++ [Stage.waitData]
      let ex5 := ex4 ++ [Stage.collect]
      let ex6 := ex5 ++ [Stage.report]
      (true, ex6)

/-! ## Proof-layer decompositions for key uniqueness -/

/-- The canonical form of a generated item key: either a plain key, or
a base followed by an opening bracket and a remainder (index digits and
the closing bracket). -/
def realizeKey : List Char × Option (List Char) → List Char
  | (b, none) => b
  | (b, some r) => b ++ '[' :: r

/-- The part of an `add_bulk_items.py` interface key template before
its bracketed placeholder. -/
def keyBase2 (e : Tmpl2) : List Char :=
  e.key.data.takeWhile (· ≠ '[')

/-- Split a concrete key at its first opening bracket (identity shape
for bracket-free keys). -/
def decompKey (k : List Char) : List Char × Option (List Char) :=
  let b := k.takeWhile (· ≠ '[')
  if b.length = k.length then (k, none) else (b, some (k.drop (b.length + 1)))

/-- Canonical forms of the keys generated by `add_bulk_items_1000.py`
for one host, in generation order. -/
def keyShape1000 : List (List Char × Option (List Char)) :=
  ((List.range' 1 48).flatMap fun i =>
    INTERFACE_ITEMS.map fun e => (e.item_key.data, some ((Nat.repr i).data ++ [']']))) ++
  (SYSTEM_ITEMS.map fun e => (e.item_key.data, none))

/-- Canonical forms of the keys generated by `add_bulk_items.py` for
one host, in generation order. -/
def keyShape2 : List (List Char × Option (List Char)) :=
  ((List.range' 1 48).flatMap fun i =>
    INTERFACE_ITEMS2.map fun e => (keyBase2 e, some ((Nat.repr i).data ++ [']']))) ++
  (SYSTEM_ITEMS2.map fun e => decompKey e.key.data)

/-! ## Sample inputs used by the concrete witnesses -/

/-- Sample outcome function: every `item.update` succeeds except for
item id `"b"`. -/
def updateOkSample : String → Bool := fun s => s != "b"

/-- Sample duplicate-error message (contains `"already exists"` exactly
twice). -/
def dupMsgSample : String :=
  "Item with key x already exists; item with key y already exists."

/-- Sample probe history: the server only answers 200 on the third
attempt (0-based index 2). -/
def probeSample : Nat → ProbeOutcome :=
  fun i => if i = 2 then ProbeOutcome.status 200 else ProbeOutcome.exn

end SnmpsimSpec

namespace SnmpsimSpec

/-! ## General lemmas -/

theorem nodup_flatMap_of {l : List α} {f : α → List β}
    (h1 : ∀ a ∈ l, (f a).Nodup)
    (h2 : l.Pairwise fun a b => ∀ x ∈ f a, x ∉ f b) :
    (l.flatMap f).Nodup := by
  induction l with
  | nil => simp
  | cons a t ih =>
    rw [List.flatMap_cons, List.nodup_append]
    rw [List.pairwise_cons] at h2
    refine ⟨h1 a (by simp), ih (fun b hb => h1 b (by simp [hb])) h2.2, ?_⟩
    intro x hx hx'
    rw [List.mem_flatMap] at hx'
    obtain ⟨b, hb, hxb⟩ := hx'
    exact h2.1 b hb x hx hxb

theorem split_at_first_bracket {b1 b2 r1 r2 : List Char}
    (h1 : '[' ∉ b1) (h2 : '[' ∉ b2)
    (h : b1 ++ '[' :: r1 = b2 ++ '[' :: r2) : b1 = b2 ∧ r1 = r2 := by
  induction b1 generalizing b2 with
  | nil =>
    cases b2 with
    | nil => simpa using h
    | cons c t =>
      simp only [List.nil_append, List.cons_append, List.cons.injEq] at h
      exact absurd (h.1 ▸ List.mem_cons_self c t) h2
  | cons c t ih =>
    cases b2 with
    | nil =>
      simp only [List.nil_append, List.cons_append, List.cons.injEq] at h
      exact absurd (h.1 ▸ List.mem_cons_self c t) h1
    | cons c' t' =>
      simp only [List.cons_append, List.cons.injEq] at h
      have := ih (fun hm => h1 (List.mem_cons_of_mem c hm))
        (fun hm => h2 (List.mem_cons_of_mem c' hm)) h.2
      exact ⟨by rw [h.1, this.1], this.2⟩

theorem realizeKey_inj {p q : List Char × Option (List Char)}
    (hp : '[' ∉ p.1) (hq : '[' ∉ q.1)
    (h : realizeKey p = realizeKey q) : p = q := by
  obtain ⟨b1, o1⟩ := p
  obtain ⟨b2, o2⟩ := q
  cases o1 with
  | none =>
    cases o2 with
    | none => simpa [realizeKey] using h
    | some r2 =>
      simp only [realizeKey] at h
      exact absurd (h ▸ (List.mem_append.mpr (Or.inr (List.mem_cons_self _ _)))) hp
  | some r1 =>
    cases o2 with
    | none =>
      simp only [realizeKey] at h
      exact absurd (h ▸ (List.mem_append.mpr (Or.inr (List.mem_cons_self _ _)))) hq
    | some r2 =>
      simp only [realizeKey] at h
      have hp' : '[' ∉ b1 := hp
      have hq' : '[' ∉ b2 := hq
      have := split_at_first_bracket hp' hq' h
      simp [this.1, this.2]

/-! ## Key uniqueness (C5) -/

theorem ifaceKeys1000_nodup : (INTERFACE_ITEMS.map fun e => e.item_key.data).Nodup := by
  decide

theorem sysKeys1000_nodup : (SYSTEM_ITEMS.map fun e => e.item_key.data).Nodup := by
  decide

theorem reprBracket_pairwise :
    (List.range' 1 48).Pairwise fun a b =>
      (Nat.repr a).data ++ [']'] ≠ (Nat.repr b).data ++ [']'] := by
  decide

theorem ifaceKeys1000_bracketFree : ∀ e ∈ INTERFACE_ITEMS, '[' ∉ e.item_key.data := by
  decide

theorem sysKeys1000_bracketFree : ∀ e ∈ SYSTEM_ITEMS, '[' ∉ e.item_key.data := by
  decide

theorem ifaceBases2_nodup : (INTERFACE_ITEMS2.map keyBase2).Nodup := by
  decide

theorem ifaceBases2_bracketFree : ∀ e ∈ INTERFACE_ITEMS2, '[' ∉ keyBase2 e := by
  decide

theorem sysShape2_nodup : (SYSTEM_ITEMS2.map fun e => decompKey e.key.data).Nodup := by
  decide

theorem sysShape2_bracketFree : ∀ t ∈ SYSTEM_ITEMS2, '[' ∉ (decompKey t.key.data).1 := by
  decide

theorem bases2_disjoint :
    ∀ e ∈ INTERFACE_ITEMS2, ∀ t ∈ SYSTEM_ITEMS2,
      keyBase2 e ≠ (decompKey t.key.data).1 := by
  decide

/-- The interface blocks of either script's key shapes have no
duplicates: within one index block the bases are distinct, and blocks
of different indices carry distinct index remainders. -/
theorem shape_flatMap_nodup {γ} (cat : List γ) (base : γ → List Char)
    (hnodup : (cat.map base).Nodup) :
    ((List.range' 1 48).flatMap fun i =>
      cat.map fun e => (base e, some ((Nat.repr i).data ++ [']']))).Nodup := by
  apply nodup_flatMap_of
  · intro i _
    apply List.Nodup.of_map Prod.fst
    rw [List.map_map]
    exact hnodup
  · apply List.Pairwise.imp ?_ reprBracket_pairwise
    intro a b hne x hxa hxb
    rw [List.mem_map] at hxa hxb
    obtain ⟨e, _, he⟩ := hxa
    obtain ⟨e', _, he'⟩ := hxb
    apply hne
    have h2 := congrArg Prod.snd (he.trans he'.symm)
    simpa using h2

theorem keyShape1000_nodup : keyShape1000.Nodup := by
  rw [keyShape1000, List.nodup_append]
  refine ⟨shape_flatMap_nodup INTERFACE_ITEMS (fun e => e.item_key.data) ifaceKeys1000_nodup,
    ?_, ?_⟩
  · apply List.Nodup.of_map Prod.fst
    rw [List.map_map]
    exact sysKeys1000_nodup
  · intro x hx hx'
    rw [List.mem_flatMap] at hx
    obtain ⟨i, _, hxi⟩ := hx
    rw [List.mem_map] at hxi hx'
    obtain ⟨e, _, he⟩ := hxi
    obtain ⟨e', _, he'⟩ := hx'
    rw [← he] at he'
    exact Option.noConfusion (congrArg Prod.snd he')

theorem keyShape1000_bracketFree : ∀ p ∈ keyShape1000, '[' ∉ p.1 := by
  intro p hp
  rw [keyShape1000, List.mem_append] at hp
  cases hp with
  | inl h =>
    rw [List.mem_flatMap] at h
    obtain ⟨i, _, hi⟩ := h
    rw [List.mem_map] at hi
    obtain ⟨e, he, hpe⟩ := hi
    rw [← hpe]
    exact ifaceKeys1000_bracketFree e he
  | inr h =>
    rw [List.mem_map] at h
    obtain ⟨e, he, hpe⟩ := h
    rw [← hpe]
    exact sysKeys1000_bracketFree e he

theorem keyShape2_nodup : keyShape2.Nodup := by
  rw [keyShape2, List.nodup_append]
  refine ⟨shape_flatMap_nodup INTERFACE_ITEMS2 keyBase2 ifaceBases2_nodup,
    sysShape2_nodup, ?_⟩
  intro x hx hx'
  rw [List.mem_flatMap] at hx
  obtain ⟨i, _, hxi⟩ := hx
  rw [List.mem_map] at hxi hx'
  obtain ⟨e, he, hpe⟩ := hxi
  obtain ⟨e', he', hpe'⟩ := hx'
  rw [← hpe] at hpe'
  exact bases2_disjoint e he e' he' (congrArg Prod.fst hpe'.symm)

theorem keyShape2_bracketFree : ∀ p ∈ keyShape2, '[' ∉ p.1 := by
  intro p hp
  rw [keyShape2, List.mem_append] at hp
  cases hp with
  | inl h =>
    rw [List.mem_flatMap] at h
    obtain ⟨i, _, hi⟩ := h
    rw [List.mem_map] at hi
    obtain ⟨e, he, hpe⟩ := hi
    rw [← hpe]
    exact ifaceBases2_bracketFree e he
  | inr h =>
    rw [List.mem_map] at h
    obtain ⟨e, he, hpe⟩ := h
    rw [← hpe]
    exact sysShape2_bracketFree e he

/-- Each generated key of `add_bulk_items_1000.py` is its shape's
realization (the f-string `key = item_key ++ bracketed index`, checked
by evaluation). -/
theorem keys1000_shape (hostid ifaceid : String) :
    ((itemsToCreate1000 hostid ifaceid).map fun it => it.key_.data) =
      keyShape1000.map realizeKey :=
  rfl

/-- Each generated key of `add_bulk_items.py` is its shape's
realization (the `str.replace` of the placeholder, checked by
evaluation). -/
theorem keys2_shape (hostid ifaceid : String) :
    ((itemsToCreate2 hostid ifaceid).map fun it => it.key_.data) =
      keyShape2.map realizeKey :=
  rfl

theorem shape_map_nodup {shape : List (List Char × Option (List Char))}
    (hn : shape.Nodup) (hb : ∀ p ∈ shape, '[' ∉ p.1) :
    (shape.map realizeKey).Nodup :=
  List.Nodup.map_on (fun x hx y hy hxy => realizeKey_inj (hb x hx) (hb y hy) hxy) hn

/-- C5 (confirmed): in the batch generated for a single host by either
bulk item-generation script, all item keys are pairwise distinct: no
two catalog entries collide at one interface index, no entry collides
with itself across two indices, and no per-interface key equals a
host-global key. -/
theorem bulk_item_keys_nodup (hostid ifaceid : String) :
    ((itemsToCreate1000 hostid ifaceid).map Item1000.key_).Nodup ∧
      ((itemsToCreate2 hostid ifaceid).map Item2.key_).Nodup := by
  constructor
  · apply List.Nodup.of_map String.data
    rw [List.map_map]
    have e : (String.data ∘ Item1000.key_) = fun it : Item1000 => it.key_.data := rfl
    rw [e, keys1000_shape hostid ifaceid]
    exact shape_map_nodup keyShape1000_nodup keyShape1000_bracketFree
  · apply List.Nodup.of_map String.data
    rw [List.map_map]
    have e : (String.data ∘ Item2.key_) = fun it : Item2 => it.key_.data := rfl
    rw [e, keys2_shape hostid ifaceid]
    exact shape_map_nodup keyShape2_nodup keyShape2_bracketFree

/-! ## Item counts (C1) -/

/-- C1 (counterexample): for one host, `add_bulk_items_1000.py`
generates 1451 item definitions, not the 1402 the claim states (its
catalogs have 29 per-interface and 59 global entries, not 28 and 58). -/
theorem bulk_items_1000_count_ne_1402 :
    (itemsToCreate1000 "10001" "1").length = 1451 ∧ (1451 : Nat) ≠ 1402 :=
  ⟨rfl, by decide⟩

/-- C1 (amended): for every host, the bulk item generation of
`add_bulk_items_1000.py` emits one definition per per-interface catalog
entry for each interface index in 1..48, then the global catalog once;
the catalogs have 29 and 59 entries, so exactly `48*29 + 59 = 1451`
item definitions are produced. -/
theorem bulk_items_1000_count (hostid ifaceid : String) :
    (itemsToCreate1000 hostid ifaceid).length =
        48 * INTERFACE_ITEMS.length + SYSTEM_ITEMS.length ∧
      INTERFACE_ITEMS.length = 29 ∧ SYSTEM_ITEMS.length = 59 ∧
      (itemsToCreate1000 hostid ifaceid).length = 1451 :=
  ⟨rfl, rfl, rfl, rfl⟩

/-! ## Lossless chunking (C6) -/

theorem flatten_pyRangeAux_slices (l : List α) (bs : Nat) (hbs : 1 ≤ bs) :
    ∀ fuel start, l.length - start ≤ fuel →
      ((pyRangeAux l.length bs fuel start).map fun s => pySlice l s (s + bs)).flatten =
        l.drop start := by
  intro fuel
  induction fuel with
  | zero =>
    intro start h
    have hle : l.length ≤ start := by omega
    simp [pyRangeAux, List.drop_eq_nil_of_le hle]
  | succ f ih =>
    intro start h
    rw [pyRangeAux]
    by_cases hc : 0 < bs ∧ start < l.length
    · rw [if_pos hc]
      simp only [List.map_cons, List.flatten_cons]
      rw [ih (start + bs) (by omega), pySlice]
      have hd : start + bs - start = bs := by omega
      rw [hd, ← List.drop_drop bs start l]
      exact List.take_append_drop bs (l.drop start)
    · rw [if_neg hc]
      have hle : l.length ≤ start := by omega
      simp [List.drop_eq_nil_of_le hle]

/-- C6 (confirmed): the concatenation, in submission order, of the
batches submitted by the 100-element batch loops equals the originally
generated item list, element for element and in order. -/
theorem chunking_lossless {α} (l : List α) :
    (submitBatches l BATCH_SIZE).flatten = l := by
  have h := flatten_pyRangeAux_slices l BATCH_SIZE (by decide) (l.length - 0) 0 (by omega)
  rw [submitBatches, pyRange]
  simpa using h

/-! ## Trends windows (C7) -/

theorem iface2_value_types : ∀ t ∈ INTERFACE_ITEMS2, t.value_type ≠ 4 := by
  decide

theorem sys1000_text_trends :
    ∀ e ∈ SYSTEM_ITEMS, pyInt e.value_type = 1 → pyInt e.trends = 0 := by
  decide

/-- C7 (counterexample): in `add_bulk_items_1000.py` the first
generated item (`ifDescr` at interface index 1) has the non-numeric
value type 1 yet a trends window of 365, not zero; moreover the
numeric `system.uptime` item (index 1393 of the batch) gets a zero
trends window. -/
theorem bulk_items_1000_text_trends_ne_zero :
    ((itemsToCreate1000 "10001" "1").head?.map fun it => (it.value_type, it.trends)) =
        some (1, 365) ∧
      (365 : Nat) ≠ 0 ∧
      (((itemsToCreate1000 "10001" "1")[1393]?).map fun it =>
          (it.key_, it.value_type, it.trends)) = some ("system.uptime", 3, 0) :=
  ⟨rfl, by decide, rfl⟩

/-- C7 (amended): in `add_bulk_items.py` every generated item, whether
per-interface or host-global, gets trends `'0'` when its value type is
the text type 4 and the configured `'365d'` otherwise; but in
`add_bulk_items_1000.py` per-interface items always get trends 365
regardless of value type, and host-global items take the per-entry
catalog value, which is 0 for every character-typed (value type 1)
entry but also 0 for some numeric ones. -/
theorem bulk_items_trends (hostid ifaceid : String) :
    (∀ it ∈ itemsToCreate2 hostid ifaceid,
        (it.value_type = 4 → it.trends = "0") ∧
          (it.value_type ≠ 4 → it.trends = "365d")) ∧
      (∀ it ∈ interfaceItems1000 hostid ifaceid, it.trends = 365) ∧
      (∀ it ∈ systemItems1000 hostid ifaceid,
        it.value_type = 1 → it.trends = 0) := by
  refine ⟨?_, ?_, ?_⟩
  · intro it hit
    rw [itemsToCreate2, List.mem_append] at hit
    cases hit with
    | inl hmem =>
      rw [interfaceItems2, List.mem_flatMap] at hmem
      obtain ⟨i, _, hmi⟩ := hmem
      rw [List.mem_map] at hmi
      obtain ⟨t, ht, hmk⟩ := hmi
      subst hmk
      refine ⟨fun h4 => absurd ?_ (iface2_value_types t ht), fun _ => rfl⟩
      simpa [mkIfItem2] using h4
    | inr hmem =>
      rw [systemItems2, List.mem_map] at hmem
      obtain ⟨t, _, hmk⟩ := hmem
      subst hmk
      constructor
      · intro h4
        have h4' : t.value_type = 4 := by simpa [mkSysItem2] using h4
        simp [mkSysItem2, h4']
      · intro h4
        have h4' : ¬t.value_type = 4 := by simpa [mkSysItem2] using h4
        simp [mkSysItem2, h4']
  · intro it hit
    rw [interfaceItems1000, List.mem_flatMap] at hit
    obtain ⟨i, _, hmi⟩ := hit
    rw [List.mem_map] at hmi
    obtain ⟨e, _, hmk⟩ := hmi
    subst hmk
    rfl
  · intro it hit h1
    rw [systemItems1000, List.mem_map] at hit
    obtain ⟨e, he, hmk⟩ := hit
    subst hmk
    have h1' : pyInt e.value_type = 1 := by simpa [mkSysItem1000] using h1
    simp [mkSysItem1000, h1', sys1000_text_trends e he h1']

/-- Witness for the amended C7 at concrete items: the text-typed
`system.descr` of `add_bulk_items.py` gets `'0'`, the interface item
`ifDescr` of `add_bulk_items_1000.py` gets 365, and the character-typed
`sysDescr` of `add_bulk_items_1000.py` gets 0. -/
theorem bulk_items_trends_witness :
    (mkSysItem2 "h" "i"
        ⟨"System: Description", "system.descr", "1.3.6.1.2.1.1.1.0", none, 4⟩).trends = "0" ∧
      (mkIfItem1000 "h" "i" 1 ⟨"ifDescr", "net.if.description", "1", "6"⟩).trends = 365 ∧
      (mkSysItem1000 "h" "i"
        ⟨"sysDescr", "system.description", "1", "6", "0"⟩).trends = 0 := by
  refine ⟨?_, ?_, ?_⟩
  · refine ((bulk_items_trends "h" "i").1 _ ?_).1 rfl
    exact List.mem_append_right _ (List.mem_map_of_mem _ (by decide))
  · refine (bulk_items_trends "h" "i").2.1 _ ?_
    exact List.mem_flatMap.mpr ⟨1, by decide, List.mem_map_of_mem _ (by decide)⟩
  · refine (bulk_items_trends "h" "i").2.2 _ ?_ rfl
    exact List.mem_map_of_mem _ (by decide)

/-! ## Test-runner stage sequence (C8) -/

/-- C8 (confirmed): with the client initialized, an authentication
failure makes `run_full_test` return `False` having executed only the
first two stages; with authentication succeeding, all seven stages
execute and the function returns `True` regardless of the
device-provisioning, item-verification and data-collection results. -/
theorem run_full_test_stages (o : StageOutcomes) (hi : o.initOk = true) :
    (o.authOk = false →
        runFullTest o = (false, [Stage.initClient, Stage.auth])) ∧
      (o.authOk = true →
        runFullTest o = (true, [Stage.initClient, Stage.auth, Stage.addDevices,
          Stage.verifyItems, Stage.waitData, Stage.collect, Stage.report])) := by
  constructor <;> intro h <;> simp [runFullTest, hi, h]

/-- Witness for C8: an auth-failing run executes only two stages and
fails; a run whose provisioning and verification stages fail still
executes all seven stages and returns `True`. -/
theorem run_full_test_stages_witness :
    runFullTest ⟨true, false, true, true, true⟩ =
        (false, [Stage.initClient, Stage.auth]) ∧
      runFullTest ⟨true, true, false, false, true⟩ =
        (true, [Stage.initClient, Stage.auth, Stage.addDevices,
          Stage.verifyItems, Stage.waitData, Stage.collect, Stage.report]) :=
  ⟨(run_full_test_stages ⟨true, false, true, true, true⟩ rfl).1 rfl,
    (run_full_test_stages ⟨true, true, false, false, true⟩ rfl).2 rfl⟩

/-! ## update_polling_interval (C9) -/

theorem updateItemsLoop_stops (ok : String → Bool) (x : String) (suf : List String) :
    ∀ pre : List String, (∀ y ∈ pre, ok y = true) → ok x = false →
      updateItemsLoop ok (pre ++ x :: suf) = (false, pre ++ [x]) := by
  intro pre
  induction pre with
  | nil =>
    intro _ hx
    simp [updateItemsLoop, hx]
  | cons a t ih =>
    intro hpre hx
    have ha : ok a = true := hpre a (by simp)
    rw [List.cons_append, updateItemsLoop]
    rw [if_pos ha, ih (fun y hy => hpre y (by simp [hy])) hx]
    simp

/-- C9 (confirmed): `update_polling_interval` returns `True` without
issuing any `item.update` request when the host has no items; and when
the update of some item fails after the updates of all items before it
succeeded, it returns `False` having issued requests exactly for the
items up to and including the failing one. -/
theorem update_polling_interval_spec (ok : String → Bool) (pre suf : List String)
    (x : String) (hpre : ∀ y ∈ pre, ok y = true) (hx : ok x = false) :
    updatePollingInterval [] ok = (true, []) ∧
      updatePollingInterval (pre ++ x :: suf) ok = (false, pre ++ [x]) := by
  constructor
  · rfl
  · have hne : (pre ++ x :: suf).isEmpty = false := by simp
    rw [updatePollingInterval, hne]
    simpa using updateItemsLoop_stops ok x suf pre hpre hx

/-- Witness for C9: with items `["a", "b", "c"]` and the update of
`"b"` failing, the loop returns `False` having issued requests for
`"a"` and `"b"` only; the empty item list returns `True` with no
requests. -/
theorem update_polling_interval_spec_witness :
    updatePollingInterval [] updateOkSample = (true, []) ∧
      updatePollingInterval ["a", "b", "c"] updateOkSample = (false, ["a", "b"]) := by
  have h := update_polling_interval_spec updateOkSample ["a"] ["c"] "b"
    (by decide) (by decide)
  exact ⟨h.1, h.2⟩

/-! ## create_host community macro (C10) -/

/-- C10 (confirmed): the SNMP interface sent by `create_host` carries
the `$SNMP_COMMUNITY` macro as its community exactly when the
`community` argument is `"public"` (the default); any other community
value is sent literally. -/
theorem create_host_community (ip : String) (port : Nat)
    (ver community : String) :
    (community = "public" →
        (createHostIface ip port ver community).details.community =
          "\x7b$SNMP_COMMUNITY\x7d") ∧
      (community ≠ "public" →
        (createHostIface ip port ver community).details.community = community) := by
  constructor <;> intro h <;> simp [createHostIface, h]

/-- Witness for C10: `"public"` becomes the macro, `"secret"` is sent
literally. -/
theorem create_host_community_witness :
    (createHostIface "127.0.0.1" 161 "2" "public").details.community =
        "\x7b$SNMP_COMMUNITY\x7d" ∧
      (createHostIface "127.0.0.1" 161 "2" "secret").details.community = "secret" :=
  ⟨(create_host_community "127.0.0.1" 161 "2" "public").1 rfl,
    (create_host_community "127.0.0.1" 161 "2" "secret").2 (by decide)⟩

/-! ## Duplicate-error accounting (C2) -/

theorem isPrefixOf_append_self (l t : List Char) : List.isPrefixOf l (l ++ t) = true := by
  induction l with
  | nil => simp [List.isPrefixOf]
  | cons c cs ih => simp [List.isPrefixOf, ih]

theorem countOccsAux_pos (p : Char) (ps : List Char) :
    ∀ fuel s (pre t : List Char), s = pre ++ (p :: ps) ++ t → s.length ≤ fuel →
      1 ≤ countOccsAux (p :: ps) fuel s := by
  intro fuel
  induction fuel with
  | zero =>
    intro s pre t hs hlen
    exfalso
    subst hs
    simp only [List.length_append, List.length_cons] at hlen
    omega
  | succ f ih =>
    intro s pre t hs hlen
    cases pre with
    | nil =>
      subst hs
      have hpre : List.isPrefixOf (p :: ps) ((p :: ps) ++ t) = true :=
        isPrefixOf_append_self (p :: ps) t
      have hunf : countOccsAux (p :: ps) (f + 1) ((p :: ps) ++ t) =
          if List.isPrefixOf (p :: ps) ((p :: ps) ++ t) then
            1 + countOccsAux (p :: ps) f (List.drop ((p :: ps).length - 1) (ps ++ t))
          else
            countOccsAux (p :: ps) f (ps ++ t) := rfl
      simp only [List.nil_append]
      rw [hunf, if_pos hpre]
      exact Nat.le_add_right 1 _
    | cons a pre' =>
      subst hs
      have hform : (a :: pre') ++ (p :: ps) ++ t = a :: (pre' ++ (p :: ps) ++ t) := by
        simp
      rw [hform]
      have hunf : countOccsAux (p :: ps) (f + 1) (a :: (pre' ++ (p :: ps) ++ t)) =
          if List.isPrefixOf (p :: ps) (a :: (pre' ++ (p :: ps) ++ t)) then
            1 + countOccsAux (p :: ps) f
              (List.drop ((p :: ps).length - 1) (pre' ++ (p :: ps) ++ t))
          else
            countOccsAux (p :: ps) f (pre' ++ (p :: ps) ++ t) := rfl
      rw [hunf]
      split
      · exact Nat.le_add_right 1 _
      · refine ih _ pre' t rfl ?_
        rw [hform] at hlen
        simp only [List.length_cons] at hlen
        omega

theorem countOccs_pos {msg pat : List Char} (p : Char) (ps : List Char)
    (hpat : pat = p :: ps) (h : pat <:+: msg) : 1 ≤ countOccs msg pat := by
  subst hpat
  obtain ⟨pre, t, hpt⟩ := h
  exact countOccsAux_pos p ps msg.length msg pre t hpt.symm (le_refl _)

/-- C2 (confirmed): when a batch `item.create` call of
`add_bulk_items_1000.py` fails with a message containing
`"already exists"`, the per-host success counter grows by the batch
length minus the number of occurrences of that substring and the
failure counter by that occurrence count; two occurrences give 2
duplicates and `len(batch) - 2` successes, and the success delta never
exceeds the batch length (it is at most `len(batch) - 1`). -/
theorem batch_duplicate_accounting (B : Nat) (msg : String)
    (h : dupPattern.data <:+: msg.data) :
    batchCreateDeltas B (some msg) =
        ((B : Int) - (countOccs msg.data dupPattern.data : Int),
          (countOccs msg.data dupPattern.data : Int)) ∧
      1 ≤ countOccs msg.data dupPattern.data ∧
      (batchCreateDeltas B (some msg)).1 ≤ (B : Int) - 1 ∧
      (countOccs msg.data dupPattern.data = 2 →
        batchCreateDeltas B (some msg) = ((B : Int) - 2, 2)) := by
  have hpos : 1 ≤ countOccs msg.data dupPattern.data :=
    countOccs_pos 'a' "lready exists".data rfl h
  have hd : batchCreateDeltas B (some msg) =
      ((B : Int) - (countOccs msg.data dupPattern.data : Int),
        (countOccs msg.data dupPattern.data : Int)) := by
    simp only [batchCreateDeltas]
    rw [if_pos h]
  refine ⟨hd, hpos, ?_, ?_⟩
  · rw [hd]
    have : (1 : Int) ≤ (countOccs msg.data dupPattern.data : Int) := by
      exact_mod_cast hpos
    omega
  · intro h2
    rw [hd, h2]
    norm_num

/-- Witness for C2 at batch length 5: the message with two occurrences
reports 2 duplicates and 3 successes, at most `5 - 1`. -/
theorem batch_duplicate_accounting_witness :
    batchCreateDeltas 5 (some dupMsgSample) = (3, 2) ∧
      (batchCreateDeltas 5 (some dupMsgSample)).1 ≤ (5 : Int) - 1 := by
  have hin : dupPattern.data <:+: dupMsgSample.data :=
    ⟨"Item with key x ".data, "; item with key y already exists.".data, by decide⟩
  have h := batch_duplicate_accounting 5 dupMsgSample hin
  have h2 : countOccs dupMsgSample.data dupPattern.data = 2 := by decide
  refine ⟨?_, h.2.2.1⟩
  have := h.2.2.2 h2
  simpa using this

/-! ## wait_for_server (C3) -/

theorem waitLoopAux_probes_le (probe : Nat → ProbeOutcome) (maxR interval : Nat) :
    ∀ fuel attempt,
      (waitLoopAux probe maxR interval fuel attempt).2.1 ≤ maxR - attempt := by
  intro fuel
  induction fuel with
  | zero => intro attempt; simp [waitLoopAux]
  | succ f ih =>
    intro attempt
    simp only [waitLoopAux]
    by_cases h1 : attempt < maxR
    · rw [if_pos h1]
      by_cases h2 : probe attempt = ProbeOutcome.status 200
      · rw [if_pos h2]
        simp
        omega
      · rw [if_neg h2]
        have := ih (attempt + 1)
        simp only []
        omega
    · rw [if_neg h1]
      simp

theorem waitLoopAux_success (probe : Nat → ProbeOutcome) (maxR interval k : Nat)
    (hk : k < maxR) (hsucc : probe k = ProbeOutcome.status 200)
    (hfail : ∀ j, j < k → probe j ≠ ProbeOutcome.status 200) :
    ∀ fuel attempt, attempt ≤ k → maxR - attempt ≤ fuel →
      waitLoopAux probe maxR interval fuel attempt =
        (true, k + 1 - attempt, (k - attempt) * interval) := by
  intro fuel
  induction fuel with
  | zero =>
    intro attempt ha hf
    exfalso
    omega
  | succ f ih =>
    intro attempt ha hf
    simp only [waitLoopAux]
    have hlt : attempt < maxR := by omega
    rw [if_pos hlt]
    by_cases heq : attempt = k
    · subst heq
      rw [if_pos hsucc]
      have e1 : attempt + 1 - attempt = 1 := by omega
      have e2 : attempt - attempt = 0 := by omega
      rw [e1, e2]
      simp
    · have hne : probe attempt ≠ ProbeOutcome.status 200 := hfail attempt (by omega)
      rw [if_neg hne, ih (attempt + 1) (by omega) (by omega)]
      have hsl : attempt < maxR - 1 := by omega
      rw [if_pos hsl]
      have e1 : k + 1 - (attempt + 1) + 1 = k + 1 - attempt := by omega
      have e2 : k - attempt = (k - (attempt + 1)) + 1 := by omega
      simp only []
      rw [e1, e2, Nat.succ_mul]

theorem waitLoopAux_all_fail (probe : Nat → ProbeOutcome) (maxR interval : Nat)
    (hfail : ∀ j, j < maxR → probe j ≠ ProbeOutcome.status 200) :
    ∀ fuel attempt, maxR - attempt ≤ fuel →
      waitLoopAux probe maxR interval fuel attempt =
        (false, maxR - attempt, (maxR - attempt - 1) * interval) := by
  intro fuel
  induction fuel with
  | zero =>
    intro attempt hf
    have e : maxR - attempt = 0 := by omega
    rw [e]
    simp [waitLoopAux]
  | succ f ih =>
    intro attempt hf
    simp only [waitLoopAux]
    by_cases h1 : attempt < maxR
    · have hne : probe attempt ≠ ProbeOutcome.status 200 := hfail attempt h1
      rw [if_pos h1, if_neg hne, ih (attempt + 1) (by omega)]
      by_cases hsl : attempt < maxR - 1
      · rw [if_pos hsl]
        have e1 : maxR - (attempt + 1) + 1 = maxR - attempt := by omega
        have e2 : maxR - attempt - 1 = (maxR - (attempt + 1) - 1) + 1 := by omega
        simp only []
        rw [e1, e2, Nat.succ_mul]
      · rw [if_neg hsl]
        have e1 : maxR - (attempt + 1) = 0 := by omega
        have e2 : maxR - attempt = 1 := by omega
        rw [e1, e2]
        simp
    · rw [if_neg h1]
      have e : maxR - attempt = 0 := by omega
      rw [e]
      simp

/-- C3 (confirmed): for every `max_retries ≥ 1`, `wait_for_server`
issues at most `max_retries` GET probes and never raises (probe
exceptions are swallowed); if the first successful probe is at attempt
index `k` (0-based), it returns `True` after `k + 1` probes and `k`
sleeps of `retry_interval` seconds; if every probe fails, it returns
`False` after exactly `max_retries` probes and `max_retries - 1`
sleeps. -/
theorem wait_for_server_spec (probe : Nat → ProbeOutcome) (maxR interval k : Nat)
    (_hm : 1 ≤ maxR) :
    (waitForServer probe maxR interval).2.1 ≤ maxR ∧
      (k < maxR → probe k = ProbeOutcome.status 200 →
        (∀ j, j < k → probe j ≠ ProbeOutcome.status 200) →
        waitForServer probe maxR interval = (true, k + 1, k * interval)) ∧
      ((∀ j, j < maxR → probe j ≠ ProbeOutcome.status 200) →
        waitForServer probe maxR interval = (false, maxR, (maxR - 1) * interval)) := by
  refine ⟨?_, ?_, ?_⟩
  · have := waitLoopAux_probes_le probe maxR interval maxR 0
    simpa [waitForServer] using this
  · intro hk hs hf
    have := waitLoopAux_success probe maxR interval k hk hs hf maxR 0
      (by omega) (by omega)
    simpa [waitForServer] using this
  · intro hf
    have := waitLoopAux_all_fail probe maxR interval hf maxR 0 (by omega)
    simpa [waitForServer] using this

/-- Witness for C3: `wait_for_server(max_retries=3, retry_interval=1)`
against a server answering on the third attempt returns `True` after 3
probes and 2 seconds of sleeping. -/
theorem wait_for_server_spec_witness :
    waitForServer probeSample 3 1 = (true, 3, 2) ∧
      (waitForServer probeSample 3 1).2.1 ≤ 3 := by
  have h := wait_for_server_spec probeSample 3 1 2 (by decide)
  refine ⟨?_, h.1⟩
  have := h.2.1 (by decide) (by decide) (by decide)
  simpa using this

/-! ## Idempotent device provisioning (C4) -/

theorem addDevicesLoop_state_mono (nums : List Nat) :
    ∀ state, ∃ ext, (addDevicesLoop state nums).1 = state ++ ext := by
  induction nums with
  | nil => intro state; exact ⟨[], by simp [addDevicesLoop]⟩
  | cons m rest ih =>
    intro state
    simp only [addDevicesLoop]
    by_cases h : deviceHostname m ∈ state
    · rw [if_pos h]
      exact ih state
    · rw [if_neg h]
      obtain ⟨ext, hext⟩ := ih (state ++ [deviceHostname m])
      exact ⟨deviceHostname m :: ext, by simp only []; rw [hext]; simp⟩

theorem addDevicesLoop_mem (nums : List Nat) :
    ∀ state, ∀ n ∈ nums, deviceHostname n ∈ (addDevicesLoop state nums).1 := by
  induction nums with
  | nil => simp
  | cons m rest ih =>
    intro state n hn
    simp only [addDevicesLoop]
    by_cases h : deviceHostname m ∈ state
    · rw [if_pos h]
      cases List.mem_cons.mp hn with
      | inl heq =>
        subst heq
        obtain ⟨ext, hext⟩ := addDevicesLoop_state_mono rest state
        rw [hext]
        exact List.mem_append_left _ h
      | inr hmem => exact ih state n hmem
    · rw [if_neg h]
      cases List.mem_cons.mp hn with
      | inl heq =>
        subst heq
        obtain ⟨ext, hext⟩ :=
          addDevicesLoop_state_mono rest (state ++ [deviceHostname n])
        show deviceHostname n ∈ (addDevicesLoop (state ++ [deviceHostname n]) rest).1
        rw [hext]
        exact List.mem_append_left _ (List.mem_append_right _ (by simp))
      | inr hmem =>
        show deviceHostname n ∈ (addDevicesLoop (state ++ [deviceHostname m]) rest).1
        exact ih _ n hmem

theorem addDevicesLoop_skip (nums : List Nat) :
    ∀ state, (∀ n ∈ nums, deviceHostname n ∈ state) →
      addDevicesLoop state nums = (state, []) := by
  induction nums with
  | nil => intro state _; rfl
  | cons m rest ih =>
    intro state hall
    simp only [addDevicesLoop]
    rw [if_pos (hall m (by simp))]
    exact ih state fun n hn => hall n (by simp [hn])

theorem addDevicesLoop_count_le (nums : List Nat) (name : String) :
    ∀ state, state.count name ≤ 1 → (addDevicesLoop state nums).1.count name ≤ 1 := by
  induction nums with
  | nil => intro state h; simpa [addDevicesLoop] using h
  | cons m rest ih =>
    intro state h
    simp only [addDevicesLoop]
    by_cases hm : deviceHostname m ∈ state
    · rw [if_pos hm]
      exact ih state h
    · rw [if_neg hm]
      show (addDevicesLoop (state ++ [deviceHostname m]) rest).1.count name ≤ 1
      refine ih _ ?_
      by_cases hname : name = deviceHostname m
      · subst hname
        have hzero : state.count (deviceHostname m) = 0 := List.count_eq_zero.mpr hm
        simp [List.count_append, hzero, List.count_cons]
      · have hne : (deviceHostname m == name) = false :=
          beq_eq_false_iff_ne.mpr fun heq => hname heq.symm
        have h0 : List.count name [deviceHostname m] = 0 := by
          simp [List.count_cons, hne]
        rw [List.count_append, h0]
        omega

/-- C4 (confirmed): running the `add N` device-provisioning loop twice
from an empty server yields the same state: each index's
deterministic host name exists exactly once after the first run, and
the second run detects every name through the existence check and
skips it, issuing no `create_host` call. -/
theorem add_devices_idempotent (N n : Nat) (hn1 : 1 ≤ n) (hnN : n ≤ N) :
    (cmdAddDevices (cmdAddDevices [] N).1 N).1 = (cmdAddDevices [] N).1 ∧
      (cmdAddDevices (cmdAddDevices [] N).1 N).2 = [] ∧
      (cmdAddDevices [] N).1.count (deviceHostname n) = 1 := by
  have hmem : ∀ m ∈ List.range' 1 N, deviceHostname m ∈ (cmdAddDevices [] N).1 :=
    fun m hm => addDevicesLoop_mem (List.range' 1 N) [] m hm
  have hskip := addDevicesLoop_skip (List.range' 1 N) (cmdAddDevices [] N).1 hmem
  refine ⟨?_, ?_, ?_⟩
  · rw [cmdAddDevices, hskip]
  · rw [cmdAddDevices, hskip]
  · have hle := addDevicesLoop_count_le (List.range' 1 N) (deviceHostname n) [] (by simp)
    have hpos : 0 < (cmdAddDevices [] N).1.count (deviceHostname n) :=
      List.count_pos_iff.mpr (hmem n (List.mem_range'_1.mpr ⟨hn1, by omega⟩))
    have hle' : (cmdAddDevices [] N).1.count (deviceHostname n) ≤ 1 := hle
    omega

/-- Witness for C4 at `N = 2`, checking device 1: two runs agree, the
second run issues no creates, and `cisco-iosxr-001` exists once. -/
theorem add_devices_idempotent_witness :
    (cmdAddDevices (cmdAddDevices [] 2).1 2).1 = (cmdAddDevices [] 2).1 ∧
      (cmdAddDevices (cmdAddDevices [] 2).1 2).2 = [] ∧
      (cmdAddDevices [] 2).1.count (deviceHostname 1) = 1 :=
  add_devices_idempotent 2 1 (by decide) (by decide)

end SnmpsimSpec



